import Mathlib

/-!
Verification development for the SolidWorks batch data extractor
(src/SW_DATA.py).

Shallow embedding conventions:
  - Numeric quantities handled by the script (COM doubles) are modelled as
    exact rationals; Python round(x, n) is modelled as round-half-to-even
    on rationals (pyRound below), matching the documented semantics of
    Python rounding.
  - Every COM automation call that the script wraps in try/except is
    modelled as an Except Unit value (error = the call raised); calls that
    may return a falsy handle or a falsy object are modelled as Option
    inside the Except.  The object graph reached through a document handle
    is flattened into one record of call results (structure Doc): each
    field models one call chain of the script, named after the final call.
  - win32com dynamic Dispatch wrapping is an identity marshaling step and
    is not modelled.  DocumentVisible and the Streamlit progress calls are
    pure side effects with no influence on the returned data and are not
    modelled either.
  - A Python dict is modelled as an insertion-ordered association list
    (Row) with dict assignment rowSet: overwrite in place when the key
    exists, append otherwise.
  - String helpers (lower, strip, substring, basename, splitext) are
    re-implemented over List Char because the script only feeds them
    ASCII path and property strings; basename ignores the Windows
    drive-letter corner case (paths such as C:name with no separator),
    which the claims never exercise.
-/

/-- Python round-half-to-even of a rational to an integer. -/
def pyRnd (q : ℚ) : ℤ :=
  let n := Int.floor q
  let r := q - (n : ℚ)
  if r < 1 / 2 then n
  else if 1 / 2 < r then n + 1
  else if n % 2 = 0 then n else n + 1

/-- Python round(x, nd) for nd decimal places, on exact rationals. -/
def pyRound (q : ℚ) (nd : ℕ) : ℚ :=
  ((pyRnd (q * 10 ^ nd) : ℤ) : ℚ) / 10 ^ nd

/-- ASCII lower-casing of one character, as str.lower does on ASCII. -/
def charLower (c : Char) : Char :=
  if 'A' ≤ c ∧ c ≤ 'Z' then Char.ofNat (c.toNat + 32) else c

/-- str.lower on ASCII strings. -/
def strLower (s : String) : String :=
  String.mk (s.data.map charLower)

/-- Python str whitespace characters stripped by str.strip(). -/
def isSpaceChar (c : Char) : Bool :=
  c = ' ' ∨ c = '\t' ∨ c = '\n' ∨ c = '\r' ∨ c = '\x0b' ∨ c = '\x0c'

/-- Python str.strip(). -/
def pyStrip (s : String) : String :=
  String.mk (((s.data.dropWhile isSpaceChar).reverse.dropWhile isSpaceChar).reverse)

/-- Helper for the Python substring test: does the haystack contain pat? -/
def hasSubAux (pat : List Char) : List Char → Bool
  | [] => pat.isEmpty
  | c :: t => List.isPrefixOf pat (c :: t) || hasSubAux pat t

/-- Python membership test pat in s on strings. -/
def hasSubstr (pat s : String) : Bool :=
  hasSubAux pat.data s.data

/-- os.path.basename: the part after the last path separator. -/
def basenameStr (p : String) : String :=
  String.mk ((p.data.reverse.takeWhile (fun c => ¬ (c = '/' ∨ c = '\\'))).reverse)

/-- The extension part of os.path.splitext: from the last dot of the last
path component, provided that component is not all leading dots. -/
def extOf (p : String) : String :=
  let base := (p.data.reverse.takeWhile (fun c => ¬ (c = '/' ∨ c = '\\'))).reverse
  let stem := base.dropWhile (fun c => c = '.')
  if stem.contains '.' then
    String.mk ('.' :: (base.reverse.takeWhile (fun c => ¬ c = '.')).reverse)
  else ""

/-- Line 116 of SW_DATA.py: doc_type = 1 if ext == ".sldprt" else 2,
with ext the lower-cased splitext extension of the file path. -/
def docType (p : String) : ℤ :=
  if strLower (extOf p) = ".sldprt" then 1 else 2

/-- A value stored in a result record. -/
inductive Value
  | str (s : String)
  | num (q : ℚ)
  | bool (b : Bool)
deriving DecidableEq

/-- A result record: a Python dict modelled as an insertion-ordered
association list with unique keys. -/
abbrev Row := List (String × Value)

/-- Python dict assignment row[k] = v: overwrite in place, else append. -/
def rowSet : Row → String → Value → Row
  | [], k, v => [(k, v)]
  | (k0, v0) :: t, k, v =>
    if k0 = k then (k, v) :: t else (k0, v0) :: rowSet t k v

/-- Python dict lookup row.get(k). -/
def rowGet : Row → String → Option Value
  | [], _ => none
  | (k0, v0) :: t, k => if k0 = k then some v0 else rowGet t k

/-- The keys of a record, in insertion order. -/
def rowKeys (r : Row) : List String :=
  r.map Prod.fst

/-- The definition object of a sheet-metal feature: its Thickness read
(meters) may raise. -/
structure SMDef where
  thickness : Except Unit ℚ

/-- One entry of FeatureManager.GetFeatures: its GetTypeName2 read and the
two GetDefinition access forms of lines 199-208 of SW_DATA.py (call form,
then attribute form) may each raise; a definition may also be falsy. -/
structure Feat where
  typeName2 : Except Unit String
  defCall : Except Unit (Option SMDef)
  defAttr : Except Unit (Option SMDef)

/-- A bounding box as returned by the box queries: six numbers, two
corners, in meters (indices 0..5 of the COM array). -/
structure Box where
  b0 : ℚ
  b1 : ℚ
  b2 : ℚ
  b3 : ℚ
  b4 : ℚ
  b5 : ℚ

/-- An open document handle: the outcome of every call chain the script
issues against it.  error () means the chain raised. -/
structure Doc where
  /-- GetActiveConfiguration().CustomPropertyManager.Get4(name,..) resolved
  value (lines 54-56). -/
  configProp : String → Except Unit String
  /-- Extension.CustomPropertyManager("").Get4(name,..) resolved value
  (lines 62-63). -/
  generalProp : String → Except Unit String
  /-- GetActiveConfiguration().Name (line 83). -/
  activeConfigName : Except Unit String
  /-- GetMaterialPropertyName2(configName, "", "") material name (line 84). -/
  materialPropertyName : String → Except Unit String
  /-- Extension.CreateMassProperty with SI units then UpdateMassProperties,
  reading (Mass kg, Volume m^3, SurfaceArea m^2); modelled as one chain
  (lines 156-166). -/
  massPrimary : Except Unit (ℚ × ℚ × ℚ)
  /-- Legacy GetMassProperties positional array, possibly falsy
  (lines 171-174). -/
  massLegacy : Except Unit (Option (List ℚ))
  /-- FeatureManager.GetFeatures(False), possibly falsy (lines 193-196). -/
  features : Except Unit (Option (List Feat))
  /-- GetPartBox(True), possibly falsy (line 223). -/
  partBox : Except Unit (Option Box)
  /-- GetActiveConfiguration().GetBox() fallback, falsy when the
  configuration or the box is falsy (lines 225-228). -/
  configBox : Except Unit (Option Box)
  /-- GetBox(0) for assemblies, possibly falsy (line 230). -/
  asmBox : Except Unit (Option Box)
  /-- GetTitle() call form (line 242). -/
  getTitleCall : Except Unit String
  /-- GetTitle attribute form, the fallback of line 243. -/
  getTitleAttr : Except Unit String

/-- The application connection: GetActiveObject success and OpenDoc6
(path, doc_type, mode 3, "") returning a handle or a falsy value. -/
structure App where
  active : Bool
  openDoc : String → ℤ → Option Doc

/-- get_custom_property of SW_DATA.py lines 49-69: resolved value from the
active configuration, else from the general custom tab, else empty; any
raise inside the single try yields empty (a raise in the first source
skips the second). -/
def get_custom_property (d : Doc) (name : String) : String :=
  match d.configProp name with
  | .error _ => ""
  | .ok v =>
    if ¬ pyStrip v = "" then v
    else
      match d.generalProp name with
      | .error _ => ""
      | .ok w => if ¬ pyStrip w = "" then w else ""

/-- The native material lookup of get_material lines 83-90: active
configuration name, then GetMaterialPropertyName2; a raise or an empty
name yields the Not Specified literal. -/
def nativeMaterial (d : Doc) : String :=
  match d.activeConfigName with
  | .error _ => "Not Specified"
  | .ok cn =>
    match d.materialPropertyName cn with
    | .error _ => "Not Specified"
    | .ok mn => if ¬ mn = "" then mn else "Not Specified"

/-- get_material of SW_DATA.py lines 71-90. -/
def get_material (d : Doc) (doc_type : ℤ) : String :=
  if ¬ doc_type = 1 then "N/A (Assembly)"
  else
    let mat_prop := get_custom_property d "Material"
    if ¬ mat_prop = "" ∧ ¬ hasSubstr "SW-Material" mat_prop = true then mat_prop
    else nativeMaterial d

/-- The zero-fill of the mass block (lines 180-186): Mass, Volume,
Surface Area all set to 0, in that assignment order. -/
def massZeros (row : Row) : Row :=
  rowSet (rowSet (rowSet row "Mass (g)" (.num 0)) "Volume (mm^3)" (.num 0))
    "Surface Area (mm^2)" (.num 0)

/-- Lines 176-178: positional reads vals[3], vals[4], vals[5] with the
stated conversions, assigned in order Volume, Surface Area, Mass; an
IndexError at any read is caught by the inner except, which zero-fills. -/
def massLegacyAssign (row : Row) (vals : List ℚ) : Row :=
  match vals.get? 3 with
  | none => massZeros row
  | some v3 =>
    let row := rowSet row "Volume (mm^3)" (.num (pyRound (v3 * 1000000000) 2))
    match vals.get? 4 with
    | none => massZeros row
    | some v4 =>
      let row := rowSet row "Surface Area (mm^2)" (.num (pyRound (v4 * 1000000) 2))
      match vals.get? 5 with
      | none => massZeros row
      | some v5 => rowSet row "Mass (g)" (.num (pyRound (v5 * 1000) 2))

/-- The mass block of SW_DATA.py lines 154-186: primary CreateMassProperty
path with conversions Mass x1000, Volume x1e9, Area x1e6 rounded to 2
places; on a raise, the legacy positional path; a falsy legacy array or a
raise there zero-fills. -/
def massAssign (row : Row) (d : Doc) : Row :=
  match d.massPrimary with
  | .ok (m, v, a) =>
    rowSet
      (rowSet (rowSet row "Mass (g)" (.num (pyRound (m * 1000) 2)))
        "Volume (mm^3)" (.num (pyRound (v * 1000000000) 2)))
      "Surface Area (mm^2)" (.num (pyRound (a * 1000000) 2))
  | .error _ =>
    match d.massLegacy with
    | .error _ => massZeros row
    | .ok none => massZeros row
    | .ok (some vals) =>
      if vals = [] then massZeros row else massLegacyAssign row vals

/-- Lines 199-202: tn = GetTypeName2 with its own try/except defaulting to
the empty string. -/
def featTypeName (f : Feat) : String :=
  match f.typeName2 with
  | .ok s => s
  | .error _ => ""

/-- The feature loop of lines 197-212.  The loop mutates is_sm and thk,
breaking at the first feature whose type name is SheetMetal; a raise
inside the loop is caught by the enclosing except which keeps the values
mutated so far (is_sm stays true when the raise happens after the match,
since the loop breaks at the match). -/
def scanFeats : List Feat → Bool × ℚ
  | [] => (false, 0)
  | f :: rest =>
    if featTypeName f = "SheetMetal" then
      match (match f.defCall with
             | .ok v => Except.ok v
             | .error _ => f.defAttr : Except Unit (Option SMDef)) with
      | .error _ => (true, 0)
      | .ok none => (true, 0)
      | .ok (some sd) =>
        match sd.thickness with
        | .ok t => (true, t)
        | .error _ => (true, 0)
    else scanFeats rest

/-- The sheet-metal block state of lines 189-214: feature enumeration
failure or a falsy feature list keeps the initial (false, 0). -/
def getSheetMetal (d : Doc) : Bool × ℚ :=
  match d.features with
  | .error _ => (false, 0)
  | .ok none => (false, 0)
  | .ok (some fs) => scanFeats fs

/-- Lines 215-216: the sheet-metal record fields; thickness is converted
meters to millimeters and rounded to 3 places only when a sheet-metal
feature was seen, else the literal 0. -/
def smAssign (row : Row) (d : Doc) : Row :=
  let r := getSheetMetal d
  rowSet (rowSet row "Is Sheet Metal" (.bool r.1))
    "Thickness (mm)" (.num (if r.1 then pyRound (r.2 * 1000) 3 else 0))

/-- The three axis extents of lines 233: absolute per-axis corner
differences, in meters. -/
def extents (b : Box) : List ℚ :=
  [|b.b3 - b.b0|, |b.b4 - b.b1|, |b.b5 - b.b2|]

/-- sorted(...) of line 233: ascending sort of the three extents. -/
def dimsSorted (b : Box) : List ℚ :=
  List.insertionSort (fun x y => x ≤ y) (extents b)

/-- Lines 234-236: Length, Width, Height in millimeters, rounded to 2
places, taken from the sorted extents at indices 2, 1, 0. -/
def dimValues (b : Box) : ℚ × ℚ × ℚ :=
  let dims := dimsSorted b
  (pyRound (dims.getD 2 0 * 1000) 2, pyRound (dims.getD 1 0 * 1000) 2,
    pyRound (dims.getD 0 0 * 1000) 2)

/-- The box acquisition of lines 221-231: parts try GetPartBox, falling
back on the active configuration box when it raises; assemblies use
GetBox(0). -/
def fetchBox (d : Doc) (dt : ℤ) : Except Unit (Option Box) :=
  if dt = 1 then
    match d.partBox with
    | .ok ob => .ok ob
    | .error _ => d.configBox
  else d.asmBox

/-- The dimensions block of lines 219-238: a raise or a falsy box leaves
the record untouched; otherwise Length, Width, Height are assigned in
that order. -/
def dimAssign (row : Row) (d : Doc) (dt : ℤ) : Row :=
  match fetchBox d dt with
  | .error _ => row
  | .ok none => row
  | .ok (some b) =>
    let q := dimValues b
    rowSet (rowSet (rowSet row "Length (mm)" (.num q.1))
      "Width (mm)" (.num q.2.1)) "Height (mm)" (.num q.2.2)

/-- Lines 144-146: the three custom-property fields. -/
def propsAssign (row : Row) (d : Doc) : Row :=
  rowSet
    (rowSet (rowSet row "Part Number" (.str (get_custom_property d "Part Number")))
      "Description" (.str (get_custom_property d "Description")))
    "Revision" (.str (get_custom_property d "Revision"))

/-- The per-file record assembly of lines 136-238 for a successfully
opened document, with the four option flags in the order of the
process_files parameters. -/
def buildRow (p : String) (d : Doc) (get_mass get_dims get_sm get_props : Bool) : Row :=
  let dt := docType p
  let row : Row :=
    [("File Name", .str (basenameStr p)), ("Status", .str "Success"),
      ("Path", .str p)]
  let row := if get_props then propsAssign row d else row
  let row :=
    if get_props ∧ dt = 1 then rowSet row "Material" (.str (get_material d dt))
    else rowSet row "Material" (.str "")
  let row := if get_mass then massAssign row d else row
  let row := if get_sm ∧ dt = 1 then smAssign row d else row
  let row := if get_dims then dimAssign row d dt else row
  row

/-- Lines 126-129: the record appended when OpenDoc6 returns a falsy
handle. -/
def failedRow (p : String) : Row :=
  [("File Name", .str (basenameStr p)), ("Status", .str "Failed to Open")]

/-- Lines 241-243: GetTitle call form with the attribute-access fallback;
when the fallback itself raises, the raise escapes to the batch handler. -/
def titleOf (d : Doc) : Except Unit String :=
  match d.getTitleCall with
  | .ok t => .ok t
  | .error _ => d.getTitleAttr

/-- The batch loop of lines 109-247.  A falsy open appends the failure
record and continues; a successful open builds the record, resolves the
title, closes, appends.  A raise in the title fallback is caught by the
batch-level except of line 252, which only reports: the records appended
so far are still returned by line 259, the current and later files
contribute none. -/
def processLoop (app : App) (gm gd gs gp : Bool) : List String → List Row
  | [] => []
  | p :: rest =>
    match app.openDoc p (docType p) with
    | none => failedRow p :: processLoop app gm gd gs gp rest
    | some d =>
      match titleOf d with
      | .error _ => []
      | .ok _ => buildRow p d gm gd gs gp :: processLoop app gm gd gs gp rest

/-- process_files of SW_DATA.py lines 93-259: an unreachable application
returns the empty list (line 103); otherwise the batch loop runs. -/
def processFiles (app : App) (file_list : List String)
    (get_mass get_dims get_sm get_props : Bool) : List Row :=
  if app.active then processLoop app get_mass get_dims get_sm get_props file_list
  else []

/-- The record one input file contributes in a batch whose loop completes:
the failure record when its open is falsy, else the assembled row. -/
def recordFor (app : App) (gm gd gs gp : Bool) (p : String) : Row :=
  match app.openDoc p (docType p) with
  | none => failedRow p
  | some d => buildRow p d gm gd gs gp

/-- Processing file p cannot hit the batch-level exception handler: either
it does not open, or its title resolves. -/
def titleOkFor (app : App) (p : String) : Bool :=
  match app.openDoc p (docType p) with
  | none => true
  | some d =>
    match titleOf d with
    | .ok _ => true
    | .error _ => false

/-- No feature with type name SheetMetal is seen by the scan: the feature
enumeration raised or was falsy, or no enumerated feature has that type
name after the type-name fallback. -/
def noSheetMetalFound (d : Doc) : Prop :=
  match d.features with
  | .ok (some fs) => ∀ f ∈ fs, ¬ featTypeName f = "SheetMetal"
  | _ => True

/-- The native material lookup yields no name: the configuration-name read
raises, or the material lookup raises or returns the empty string. -/
def nativeYieldsNothing (d : Doc) : Prop :=
  d.activeConfigName = .error () ∨
    ∃ cn, d.activeConfigName = .ok cn ∧
      (d.materialPropertyName cn = .error () ∨ d.materialPropertyName cn = .ok "")

/-! ## Concrete instances used as witnesses and counterexamples -/

/-- A document on which every extraction chain raises but whose title
resolves: the minimal successfully processed document. -/
def docPlain : Doc where
  configProp := fun _ => .error ()
  generalProp := fun _ => .error ()
  activeConfigName := .error ()
  materialPropertyName := fun _ => .error ()
  massPrimary := .error ()
  massLegacy := .error ()
  features := .error ()
  partBox := .error ()
  configBox := .error ()
  asmBox := .error ()
  getTitleCall := .ok "Part1"
  getTitleAttr := .error ()

/-- A document whose title resolution raises in both forms: processing it
reaches the batch-level exception handler. -/
def docTitleErr : Doc :=
  { docPlain with getTitleCall := .error (), getTitleAttr := .error () }

/-- A document whose primary mass-property chain yields the SI triple
mass 2.5 kg, volume 0.000003 cubic meters, area 0.045 square meters. -/
def docMass : Doc :=
  { docPlain with massPrimary := .ok (5 / 2, 3 / 1000000, 9 / 200) }

/-- A feature identified as SheetMetal whose definition reads both raise. -/
def featBadDef : Feat where
  typeName2 := .ok "SheetMetal"
  defCall := .error ()
  defAttr := .error ()

/-- A document whose feature list holds exactly the bad sheet-metal
feature. -/
def docSMBad : Doc :=
  { docPlain with features := .ok (some [featBadDef]) }

/-- A part document whose direct box query raises and whose configuration
box is falsy: the dimensions block leaves the record untouched. -/
def docNoBox : Doc :=
  { docPlain with partBox := .error (), configBox := .ok none }

/-- A part whose Material custom property is the sentinel value and whose
native lookup yields a name. -/
def docMatSentinel : Doc :=
  { docPlain with
    configProp := fun n => if n = "Material" then .ok "SW-Material-Generic" else .error ()
    activeConfigName := .ok "Default"
    materialPropertyName := fun _ => .ok "AISI 1045" }

/-- A part whose Material custom property is the sentinel value and whose
native lookup returns an empty name. -/
def docMatNone : Doc :=
  { docPlain with
    configProp := fun n => if n = "Material" then .ok "SW-Material-Generic" else .error ()
    activeConfigName := .ok "Default"
    materialPropertyName := fun _ => .ok "" }

/-- A running application that opens part.sldprt as docPlain and fails to
open everything else. -/
def appOne : App where
  active := true
  openDoc := fun p _ => if p = "part.sldprt" then some docPlain else none

/-- A running application on which the second file hits the title raise. -/
def appAbort : App where
  active := true
  openDoc := fun p _ =>
    if p = "a.sldprt" then some docPlain
    else if p = "b.sldprt" then some docTitleErr
    else none

/-! ## Association-list lemmas for record reasoning -/

theorem rowGet_rowSet (r : Row) (k : String) (v : Value) (k2 : String) :
    rowGet (rowSet r k v) k2 = if k2 = k then some v else rowGet r k2 := by
  induction r with
  | nil =>
    by_cases h : k2 = k
    · subst h; simp [rowSet, rowGet]
    · simp [rowSet, rowGet, h, Ne.symm h]
  | cons hd tl ih =>
    obtain ⟨k0, v0⟩ := hd
    by_cases h0 : k0 = k
    · subst h0
      by_cases h : k2 = k0
      · subst h; simp [rowSet, rowGet]
      · simp [rowSet, rowGet, h, Ne.symm h]
    · by_cases h : k2 = k
      · subst h; simp [rowSet, rowGet, h0, ih]
      · by_cases h2 : k0 = k2 <;> simp [rowSet, rowGet, h0, h2, ih, h]

theorem rowGet_eq_none_iff (r : Row) (k : String) :
    rowGet r k = none ↔ k ∉ rowKeys r := by
  induction r with
  | nil => simp [rowGet, rowKeys]
  | cons hd tl ih =>
    obtain ⟨k0, v0⟩ := hd
    by_cases h : k0 = k
    · subst h; simp [rowGet, rowKeys]
    · simp [rowGet, rowKeys, h, ih, Ne.symm h]

theorem rowGet_propsAssign (row : Row) (d : Doc) (k : String)
    (h1 : ¬ k = "Part Number") (h2 : ¬ k = "Description")
    (h3 : ¬ k = "Revision") :
    rowGet (propsAssign row d) k = rowGet row k := by
  simp [propsAssign, rowGet_rowSet, h1, h2, h3]

theorem rowGet_massZeros (row : Row) (k : String)
    (h1 : ¬ k = "Mass (g)") (h2 : ¬ k = "Volume (mm^3)")
    (h3 : ¬ k = "Surface Area (mm^2)") :
    rowGet (massZeros row) k = rowGet row k := by
  simp [massZeros, rowGet_rowSet, h1, h2, h3]

theorem rowGet_massLegacyAssign (row : Row) (vals : List ℚ) (k : String)
    (h1 : ¬ k = "Mass (g)") (h2 : ¬ k = "Volume (mm^3)")
    (h3 : ¬ k = "Surface Area (mm^2)") :
    rowGet (massLegacyAssign row vals) k = rowGet row k := by
  unfold massLegacyAssign
  cases vals.get? 3 with
  | none => simp [rowGet_massZeros, h1, h2, h3]
  | some v3 =>
    cases vals.get? 4 with
    | none => simp [rowGet_massZeros, rowGet_rowSet, h1, h2, h3]
    | some v4 =>
      cases vals.get? 5 with
      | none => simp [rowGet_massZeros, rowGet_rowSet, h1, h2, h3]
      | some v5 => simp [rowGet_rowSet, h1, h2, h3]

theorem rowGet_massAssign (row : Row) (d : Doc) (k : String)
    (h1 : ¬ k = "Mass (g)") (h2 : ¬ k = "Volume (mm^3)")
    (h3 : ¬ k = "Surface Area (mm^2)") :
    rowGet (massAssign row d) k = rowGet row k := by
  unfold massAssign
  cases d.massPrimary with
  | ok t =>
    obtain ⟨m, v, a⟩ := t
    simp [rowGet_rowSet, h1, h2, h3]
  | error e =>
    cases d.massLegacy with
    | error e2 => simp [rowGet_massZeros, h1, h2, h3]
    | ok o =>
      cases o with
      | none => simp [rowGet_massZeros, h1, h2, h3]
      | some vals =>
        by_cases hv : vals = [] <;>
          simp [hv, rowGet_massZeros, rowGet_massLegacyAssign, h1, h2, h3]

theorem rowGet_smAssign (row : Row) (d : Doc) (k : String)
    (h1 : ¬ k = "Is Sheet Metal") (h2 : ¬ k = "Thickness (mm)") :
    rowGet (smAssign row d) k = rowGet row k := by
  simp [smAssign, rowGet_rowSet, h1, h2]

/-! ## Batch-loop lemmas -/

theorem processLoop_eq_map (app : App) (gm gd gs gp : Bool) :
    ∀ files : List String, (∀ p ∈ files, titleOkFor app p = true) →
      processLoop app gm gd gs gp files = files.map (recordFor app gm gd gs gp) := by
  intro files
  induction files with
  | nil => intro _; rfl
  | cons p rest ih =>
    intro ht
    have hp := ht p (List.mem_cons_self p rest)
    have hrest := fun q hq => ht q (List.mem_cons_of_mem _ hq)
    cases ho : app.openDoc p (docType p) with
    | none => simp [processLoop, recordFor, ho, ih hrest]
    | some d =>
      have hp2 : (match titleOf d with
          | Except.ok _ => true
          | Except.error _ => false) = true := by
        unfold titleOkFor at hp
        rw [ho] at hp
        exact hp
      cases htl : titleOf d with
      | error e => rw [htl] at hp2; simp at hp2
      | ok t => simp [processLoop, recordFor, ho, htl, ih hrest]

/-- C10: the document kind passed to OpenDoc6 is decided solely by the
lower-cased splitext extension: exactly the .sldprt files get kind 1
(part), every other path, unrecognized extensions included, gets kind 2
(assembly). -/
theorem claim10_doc_kind_from_extension :
    (∀ p : String,
      (docType p = 1 ↔ strLower (extOf p) = ".sldprt") ∧
      (docType p = 1 ∨ docType p = 2)) ∧
    docType "C:\\Parts\\Bracket.SLDPRT" = 1 ∧
    docType "housing.sldasm" = 2 ∧
    docType "model.step" = 2 ∧
    docType "README" = 2 := by
  refine ⟨fun p => ⟨?_, ?_⟩, by decide, by decide, by decide, by decide⟩
  · by_cases h : strLower (extOf p) = ".sldprt" <;> simp [docType, h]
  · by_cases h : strLower (extOf p) = ".sldprt" <;> simp [docType, h]

/-- C2: when the application connection succeeds and no file hits the
batch-level exception handler, process_files returns one record per input
file, in input order: the output is exactly the input list mapped through
the per-file record, so its length equals the number of selected files and
the record at position i belongs to the file at position i. -/
theorem claim2_one_record_per_file (app : App) (gm gd gs gp : Bool)
    (files : List String) (ha : app.active = true)
    (ht : ∀ p ∈ files, titleOkFor app p = true) :
    processFiles app files gm gd gs gp = files.map (recordFor app gm gd gs gp) ∧
    (processFiles app files gm gd gs gp).length = files.length := by
  have main := processLoop_eq_map app gm gd gs gp files ht
  refine ⟨by simpa [processFiles, ha] using main, ?_⟩
  simp [processFiles, ha, main]

theorem claim2_witness :
    appOne.active = true ∧
    titleOkFor appOne "part.sldprt" = true ∧
    titleOkFor appOne "missing.sldasm" = true ∧
    (processFiles appOne ["part.sldprt", "missing.sldasm"] true true true true =
      (["part.sldprt", "missing.sldasm"] : List String).map
        (recordFor appOne true true true true) ∧
    (processFiles appOne ["part.sldprt", "missing.sldasm"] true true true true).length =
      (["part.sldprt", "missing.sldasm"] : List String).length) :=
  ⟨rfl, by decide, by decide,
    claim2_one_record_per_file appOne true true true true
      ["part.sldprt", "missing.sldasm"] rfl (by decide)⟩

/-- C5: a file whose open call returns a falsy handle contributes exactly
the two fields File Name and Status with value Failed to Open, and the
batch continues with the remaining files. -/
theorem claim5_failed_open_record (app : App) (p : String) (rest : List String)
    (gm gd gs gp : Bool) (ha : app.active = true)
    (ho : app.openDoc p (docType p) = none) :
    processFiles app (p :: rest) gm gd gs gp =
      failedRow p :: processFiles app rest gm gd gs gp ∧
    rowKeys (failedRow p) = ["File Name", "Status"] ∧
    rowGet (failedRow p) "File Name" = some (.str (basenameStr p)) ∧
    rowGet (failedRow p) "Status" = some (.str "Failed to Open") := by
  refine ⟨?_, rfl, rfl, rfl⟩
  simp [processFiles, ha, processLoop, ho]

theorem claim5_witness :
    appOne.active = true ∧
    appOne.openDoc "missing.sldasm" (docType "missing.sldasm") = none ∧
    (processFiles appOne ["missing.sldasm", "part.sldprt"] false false false false =
      failedRow "missing.sldasm" ::
        processFiles appOne ["part.sldprt"] false false false false ∧
    rowKeys (failedRow "missing.sldasm") = ["File Name", "Status"] ∧
    rowGet (failedRow "missing.sldasm") "File Name" =
      some (.str (basenameStr "missing.sldasm")) ∧
    rowGet (failedRow "missing.sldasm") "Status" =
      some (.str "Failed to Open")) :=
  ⟨rfl, rfl,
    claim5_failed_open_record appOne "missing.sldasm" ["part.sldprt"]
      false false false false rfl rfl⟩

/-- C1 (amended): with all four option flags disabled, every successfully
opened file yields a record with exactly the four fields File Name,
Status with value Success, Path, and Material with value the empty string:
the Material key is assigned unconditionally by the else branch of
lines 148-151, so it is present even when the properties option is off. -/
theorem claim1_record_fields_all_off (app : App) (p : String) (d : Doc)
    (ha : app.active = true) (ho : app.openDoc p (docType p) = some d)
    (ht : titleOkFor app p = true) :
    processFiles app [p] false false false false =
      [buildRow p d false false false false] ∧
    rowKeys (buildRow p d false false false false) =
      ["File Name", "Status", "Path", "Material"] ∧
    rowGet (buildRow p d false false false false) "File Name" =
      some (.str (basenameStr p)) ∧
    rowGet (buildRow p d false false false false) "Status" =
      some (.str "Success") ∧
    rowGet (buildRow p d false false false false) "Path" = some (.str p) ∧
    rowGet (buildRow p d false false false false) "Material" =
      some (.str "") := by
  refine ⟨?_, rfl, rfl, rfl, rfl, rfl⟩
  have hp2 : (match titleOf d with
      | Except.ok _ => true
      | Except.error _ => false) = true := by
    unfold titleOkFor at ht
    rw [ho] at ht
    exact ht
  cases htl : titleOf d with
  | error e => rw [htl] at hp2; simp at hp2
  | ok t => simp [processFiles, ha, processLoop, ho, htl]

theorem claim1_witness :
    appOne.active = true ∧
    appOne.openDoc "part.sldprt" (docType "part.sldprt") = some docPlain ∧
    titleOkFor appOne "part.sldprt" = true ∧
    (processFiles appOne ["part.sldprt"] false false false false =
      [buildRow "part.sldprt" docPlain false false false false] ∧
    rowKeys (buildRow "part.sldprt" docPlain false false false false) =
      ["File Name", "Status", "Path", "Material"] ∧
    rowGet (buildRow "part.sldprt" docPlain false false false false) "File Name" =
      some (.str (basenameStr "part.sldprt")) ∧
    rowGet (buildRow "part.sldprt" docPlain false false false false) "Status" =
      some (.str "Success") ∧
    rowGet (buildRow "part.sldprt" docPlain false false false false) "Path" =
      some (.str "part.sldprt") ∧
    rowGet (buildRow "part.sldprt" docPlain false false false false) "Material" =
      some (.str "")) :=
  ⟨rfl, rfl, rfl,
    claim1_record_fields_all_off appOne "part.sldprt" docPlain rfl rfl rfl⟩

/-- C1 counterexample: a successfully opened file processed with all four
options disabled yields a record whose key list is File Name, Status,
Path, Material: it is not the claimed three-field record, because the
Material key is present with a fabricated empty value. -/
theorem claim1_counterexample :
    processFiles appOne ["part.sldprt"] false false false false =
      [[("File Name", Value.str "part.sldprt"), ("Status", Value.str "Success"),
        ("Path", Value.str "part.sldprt"), ("Material", Value.str "")]] ∧
    ¬ rowKeys [("File Name", Value.str "part.sldprt"),
        ("Status", Value.str "Success"), ("Path", Value.str "part.sldprt"),
        ("Material", Value.str "")] = ["File Name", "Status", "Path"] :=
  ⟨by decide, by decide⟩

/-! ## Sheet-metal scan lemmas -/

theorem scanFeats_eq_default_iff (fs : List Feat) :
    scanFeats fs = (false, 0) ↔ ∀ f ∈ fs, ¬ featTypeName f = "SheetMetal" := by
  induction fs with
  | nil => simp [scanFeats]
  | cons f rest ih =>
    by_cases hn : featTypeName f = "SheetMetal"
    · have hfst : (scanFeats (f :: rest)).1 = true := by
        simp only [scanFeats, if_pos hn]
        cases f.defCall with
        | ok o =>
          cases o with
          | none => rfl
          | some sd => cases hth : sd.thickness <;> simp [hth]
        | error e =>
          cases f.defAttr with
          | ok o =>
            cases o with
            | none => rfl
            | some sd => cases hth : sd.thickness <;> simp [hth]
          | error e2 => rfl
      constructor
      · intro h
        rw [h] at hfst
        simp at hfst
      · intro h
        exact absurd hn (h f (List.mem_cons_self f rest))
    · simp [scanFeats, if_neg hn, ih, hn]

/-- C3 (amended): the sheet-metal inspection reports is_sheet_metal false
and thickness 0 exactly when no feature with type name SheetMetal is seen,
including when the feature enumeration raises or is falsy; it never
raises.  When a SheetMetal feature has been identified, is_sheet_metal
stays true even if a later step of the inspection errors, with thickness
then reported as 0. -/
theorem claim3_sheet_metal_default_iff (d : Doc) :
    getSheetMetal d = (false, 0) ↔ noSheetMetalFound d := by
  unfold getSheetMetal noSheetMetalFound
  cases d.features with
  | error e => simp
  | ok o =>
    cases o with
    | none => simp
    | some fs => exact scanFeats_eq_default_iff fs

/-- C3 counterexample: a part whose only feature is identified as
SheetMetal but whose definition reads both raise.  A step of the
inspection errors, yet the inspection reports is_sheet_metal true (with
thickness 0), not false as claimed. -/
theorem claim3_counterexample :
    featTypeName featBadDef = "SheetMetal" ∧
    featBadDef.defCall = Except.error () ∧
    featBadDef.defAttr = Except.error () ∧
    getSheetMetal docSMBad = (true, 0) ∧
    ¬ getSheetMetal docSMBad = (false, 0) ∧
    rowGet (smAssign [] docSMBad) "Is Sheet Metal" = some (.bool true) :=
  ⟨rfl, rfl, rfl, rfl, by decide, rfl⟩

theorem processLoop_abort (app : App) (gm gd gs gp : Bool) :
    ∀ (pre : List String) (p : String) (post : List String) (d : Doc),
      (∀ q ∈ pre, titleOkFor app q = true) →
      app.openDoc p (docType p) = some d →
      titleOf d = Except.error () →
      processLoop app gm gd gs gp (pre ++ p :: post) =
        pre.map (recordFor app gm gd gs gp) := by
  intro pre
  induction pre with
  | nil =>
    intro p post d _ ho htl
    simp [processLoop, ho, htl]
  | cons q rest ih =>
    intro p post d hpre ho htl
    have hq := hpre q (List.mem_cons_self q rest)
    have hrest := fun x hx => hpre x (List.mem_cons_of_mem _ hx)
    cases hoq : app.openDoc q (docType q) with
    | none => simp [processLoop, recordFor, hoq, ih p post d hrest ho htl]
    | some d2 =>
      have hq2 : (match titleOf d2 with
          | Except.ok _ => true
          | Except.error _ => false) = true := by
        unfold titleOkFor at hq
        rw [hoq] at hq
        exact hq
      cases htl2 : titleOf d2 with
      | error e => rw [htl2] at hq2; simp at hq2
      | ok t => simp [processLoop, recordFor, hoq, htl2, ih p post d hrest ho htl]

/-- C4 (amended): when an unexpected exception is raised during the batch
loop (here: the title fallback of a file that opened), the partial result
records gathered before that file are retained, not discarded: after the
batch-level handler reports the critical error, process_files returns
exactly the records of the files processed before the exception; the
failing file and the files after it contribute nothing. -/
theorem claim4_partial_results_returned (app : App) (gm gd gs gp : Bool)
    (pre : List String) (p : String) (post : List String) (d : Doc)
    (ha : app.active = true) (hpre : ∀ q ∈ pre, titleOkFor app q = true)
    (ho : app.openDoc p (docType p) = some d)
    (htl : titleOf d = Except.error ()) :
    processFiles app (pre ++ p :: post) gm gd gs gp =
      pre.map (recordFor app gm gd gs gp) := by
  have main := processLoop_abort app gm gd gs gp pre p post d hpre ho htl
  simpa [processFiles, ha] using main

theorem claim4_witness :
    appAbort.active = true ∧
    titleOkFor appAbort "a.sldprt" = true ∧
    appAbort.openDoc "b.sldprt" (docType "b.sldprt") = some docTitleErr ∧
    titleOf docTitleErr = Except.error () ∧
    processFiles appAbort (["a.sldprt"] ++ "b.sldprt" :: []) false false false false =
      (["a.sldprt"] : List String).map (recordFor appAbort false false false false) :=
  ⟨rfl, by decide, rfl, rfl,
    claim4_partial_results_returned appAbort false false false false
      ["a.sldprt"] "b.sldprt" [] docTitleErr rfl (by decide) rfl rfl⟩

/-- C4 counterexample: a two-file batch whose second file raises in the
title fallback returns the record of the first file: the partial results
gathered before the exception are returned, not discarded. -/
theorem claim4_counterexample :
    titleOf docTitleErr = Except.error () ∧
    appAbort.openDoc "b.sldprt" (docType "b.sldprt") = some docTitleErr ∧
    processFiles appAbort ["a.sldprt", "b.sldprt"] false false false false =
      [[("File Name", Value.str "a.sldprt"), ("Status", Value.str "Success"),
        ("Path", Value.str "a.sldprt"), ("Material", Value.str "")]] ∧
    ¬ processFiles appAbort ["a.sldprt", "b.sldprt"] false false false false = [] :=
  ⟨rfl, rfl, by decide, by decide⟩

/-- C6: get_material returns the N/A (Assembly) literal for every
non-part kind without touching the document; a part whose Material custom
property contains the SW-Material sentinel falls through to the native
material lookup instead of returning the property value; and when the
custom property yields nothing (empty or sentinel) and the native lookup
yields nothing, the result is the Not Specified literal. -/
theorem claim6_material_resolution (d : Doc) (dt : ℤ) :
    (¬ dt = 1 → get_material d dt = "N/A (Assembly)") ∧
    (hasSubstr "SW-Material" (get_custom_property d "Material") = true →
      get_material d 1 = nativeMaterial d) ∧
    ((get_custom_property d "Material" = "" ∨
        hasSubstr "SW-Material" (get_custom_property d "Material") = true) →
      nativeYieldsNothing d → get_material d 1 = "Not Specified") := by
  refine ⟨fun h => by simp [get_material, h], fun h => ?_, fun h1 h2 => ?_⟩
  · have hcond : ¬ (¬ get_custom_property d "Material" = "" ∧
        ¬ hasSubstr "SW-Material" (get_custom_property d "Material") = true) :=
      fun hc => hc.2 h
    simp [get_material, hcond]
    intro hne hf
    rw [h] at hf
    simp at hf
  · have hnm : nativeMaterial d = "Not Specified" := by
      rcases h2 with hs | ⟨cn, hcn, hm⟩
      · simp [nativeMaterial, hs]
      · rcases hm with hm | hm <;> simp [nativeMaterial, hcn, hm]
    simp [get_material, hnm]
    intro hne hf
    rcases h1 with h1 | h1
    · exact absurd h1 hne
    · rw [h1] at hf; simp at hf

theorem claim6_witness :
    (¬ (2 : ℤ) = 1 ∧ get_material docPlain 2 = "N/A (Assembly)") ∧
    (hasSubstr "SW-Material" (get_custom_property docMatSentinel "Material") = true ∧
      get_custom_property docMatSentinel "Material" = "SW-Material-Generic" ∧
      get_material docMatSentinel 1 = nativeMaterial docMatSentinel ∧
      nativeMaterial docMatSentinel = "AISI 1045") ∧
    ((get_custom_property docMatNone "Material" = "" ∨
        hasSubstr "SW-Material" (get_custom_property docMatNone "Material") = true) ∧
      nativeYieldsNothing docMatNone ∧
      get_material docMatNone 1 = "Not Specified") :=
  ⟨⟨by decide, (claim6_material_resolution docPlain 2).1 (by decide)⟩,
   ⟨by decide, rfl,
     (claim6_material_resolution docMatSentinel 1).2.1 (by decide), rfl⟩,
   ⟨Or.inr (by decide), Or.inr ⟨"Default", rfl, Or.inr rfl⟩,
     (claim6_material_resolution docMatNone 1).2.2 (Or.inr (by decide))
       (Or.inr ⟨"Default", rfl, Or.inr rfl⟩)⟩⟩

/-- C8 (amended): a document processed through the primary mass-properties
path with SI inputs mass 2.5 kg, volume 0.000003 cubic meters, area 0.045
square meters records exactly Mass 2500.0 g, Volume 3000.0 cubic
millimeters, Surface Area 45000.0 square millimeters (mass x1000, volume
x1e9, area x1e6, each rounded to 2 decimal places). -/
theorem claim8_mass_conversion (row : Row) (d : Doc)
    (h : d.massPrimary = Except.ok (5 / 2, 3 / 1000000, 9 / 200)) :
    rowGet (massAssign row d) "Mass (g)" = some (.num 2500) ∧
    rowGet (massAssign row d) "Volume (mm^3)" = some (.num 3000) ∧
    rowGet (massAssign row d) "Surface Area (mm^2)" = some (.num 45000) := by
  have hm : pyRound ((5 : ℚ) / 2 * 1000) 2 = 2500 := by norm_num [pyRound, pyRnd]
  have hv : pyRound ((3 : ℚ) / 1000000 * 1000000000) 2 = 3000 := by
    norm_num [pyRound, pyRnd]
  have ha : pyRound ((9 : ℚ) / 200 * 1000000) 2 = 45000 := by
    norm_num [pyRound, pyRnd]
  unfold massAssign
  rw [h]
  refine ⟨?_, ?_, ?_⟩ <;> simp [rowGet_rowSet, hm, hv, ha]

theorem claim8_witness :
    docMass.massPrimary = Except.ok (5 / 2, 3 / 1000000, 9 / 200) ∧
    (rowGet (massAssign [] docMass) "Mass (g)" = some (.num 2500) ∧
    rowGet (massAssign [] docMass) "Volume (mm^3)" = some (.num 3000) ∧
    rowGet (massAssign [] docMass) "Surface Area (mm^2)" = some (.num 45000)) :=
  ⟨rfl, claim8_mass_conversion [] docMass rfl⟩

/-- C8 counterexample: with the claimed SI inputs the recorded volume is
3000.0 cubic millimeters (0.000003 x 1e9), not the 3000000.0 the claim
asserts. -/
theorem claim8_counterexample :
    docMass.massPrimary = Except.ok (5 / 2, 3 / 1000000, 9 / 200) ∧
    rowGet (massAssign [] docMass) "Volume (mm^3)" = some (.num 3000) ∧
    ¬ rowGet (massAssign [] docMass) "Volume (mm^3)" = some (.num 3000000) := by
  have hv : pyRound ((3 : ℚ) / 1000000 * 1000000000) 2 = 3000 := by
    norm_num [pyRound, pyRnd]
  refine ⟨rfl, ?_, ?_⟩
  · unfold massAssign docMass
    simp [rowGet_rowSet, hv]
  · unfold massAssign docMass
    simp [rowGet_rowSet, hv]

/-- C7: the three bounding-box extents are the absolute per-axis corner
differences; they are ranked by magnitude with Height the smallest, Width
the middle, Length the largest, each converted to millimeters (x1000) and
rounded to 2 decimal places; on the corners (0,0,0)-(10,50,5) meters this
yields Length 50000, Width 10000, Height 5000 millimeters. -/
theorem claim7_bounding_box_ranking :
    (∀ b : Box, ∃ e0 e1 e2 : ℚ,
      dimsSorted b = [e0, e1, e2] ∧ e0 ≤ e1 ∧ e1 ≤ e2 ∧
      (dimsSorted b).Perm (extents b) ∧
      dimValues b =
        (pyRound (e2 * 1000) 2, pyRound (e1 * 1000) 2, pyRound (e0 * 1000) 2)) ∧
    dimValues ⟨0, 0, 0, 10, 50, 5⟩ = (50000, 10000, 5000) := by
  constructor
  · intro b
    have hperm : (dimsSorted b).Perm (extents b) := List.perm_insertionSort _ _
    have hsort : List.Sorted (fun x y : ℚ => x ≤ y) (dimsSorted b) :=
      List.sorted_insertionSort _ _
    have hlen : (dimsSorted b).length = 3 := by
      rw [hperm.length_eq]; rfl
    obtain ⟨e0, e1, e2, hds⟩ := List.length_eq_three.mp hlen
    rw [hds] at hsort
    obtain ⟨h0, hsort1⟩ := List.sorted_cons.mp hsort
    obtain ⟨h1, _⟩ := List.sorted_cons.mp hsort1
    refine ⟨e0, e1, e2, hds, h0 e1 (by simp), h1 e2 (by simp), hperm, ?_⟩
    simp [dimValues, hds]
  · have he : extents ⟨0, 0, 0, 10, 50, 5⟩ = [10, 50, 5] := by
      simp [extents]
    have hs : dimsSorted ⟨0, 0, 0, 10, 50, 5⟩ = [5, 10, 50] := by
      rw [dimsSorted, he]
      decide
    have h2 : pyRound ((50 : ℚ) * 1000) 2 = 50000 := by norm_num [pyRound, pyRnd]
    have h1 : pyRound ((10 : ℚ) * 1000) 2 = 10000 := by norm_num [pyRound, pyRnd]
    have h0 : pyRound ((5 : ℚ) * 1000) 2 = 5000 := by norm_num [pyRound, pyRnd]
    simp [dimValues, hs, h0, h1, h2]

theorem dimAssign_of_failure (d : Doc) (dt : ℤ)
    (hf : fetchBox d dt = Except.error () ∨ fetchBox d dt = Except.ok none) :
    ∀ row : Row, dimAssign row d dt = row := by
  intro row
  rcases hf with hf | hf <;> simp [dimAssign, hf]

theorem rowGet_buildRow_dims_off (p : String) (d : Doc) (gm gs gp : Bool)
    (k : String)
    (hk : k = "Length (mm)" ∨ k = "Width (mm)" ∨ k = "Height (mm)") :
    rowGet (buildRow p d gm false gs gp) k = none := by
  rcases hk with hk | hk | hk <;> subst hk <;>
    (unfold buildRow
     by_cases hdt : docType p = 1 <;>
       cases gp <;> cases gm <;> cases gs <;>
         simp [hdt, rowGet_propsAssign, rowGet_massAssign, rowGet_smAssign,
           rowGet_rowSet, rowGet])

/-- C9: when the bounding-box extraction fails (the box calls raise or
yield a falsy box), the Length (mm), Width (mm) and Height (mm) keys are
absent from the record, not zero-filled, and the record equals the one
built with the dimensions option disabled: the sibling extractors are
unaffected. -/
theorem claim9_dims_absent_on_failure (p : String) (d : Doc) (gm gs gp : Bool)
    (hf : fetchBox d (docType p) = Except.error () ∨
      fetchBox d (docType p) = Except.ok none) :
    buildRow p d gm true gs gp = buildRow p d gm false gs gp ∧
    rowGet (buildRow p d gm true gs gp) "Length (mm)" = none ∧
    rowGet (buildRow p d gm true gs gp) "Width (mm)" = none ∧
    rowGet (buildRow p d gm true gs gp) "Height (mm)" = none ∧
    "Length (mm)" ∉ rowKeys (buildRow p d gm true gs gp) ∧
    "Width (mm)" ∉ rowKeys (buildRow p d gm true gs gp) ∧
    "Height (mm)" ∉ rowKeys (buildRow p d gm true gs gp) := by
  have heq : buildRow p d gm true gs gp = buildRow p d gm false gs gp := by
    unfold buildRow
    simp [dimAssign_of_failure d (docType p) hf]
  have hL := rowGet_buildRow_dims_off p d gm gs gp "Length (mm)" (Or.inl rfl)
  have hW := rowGet_buildRow_dims_off p d gm gs gp "Width (mm)" (Or.inr (Or.inl rfl))
  have hH := rowGet_buildRow_dims_off p d gm gs gp "Height (mm)" (Or.inr (Or.inr rfl))
  refine ⟨heq, by rw [heq]; exact hL, by rw [heq]; exact hW, by rw [heq]; exact hH,
    ?_, ?_, ?_⟩
  · exact (rowGet_eq_none_iff _ _).mp (by rw [heq]; exact hL)
  · exact (rowGet_eq_none_iff _ _).mp (by rw [heq]; exact hW)
  · exact (rowGet_eq_none_iff _ _).mp (by rw [heq]; exact hH)

theorem claim9_witness :
    (fetchBox docNoBox (docType "part.sldprt") = Except.error () ∨
      fetchBox docNoBox (docType "part.sldprt") = Except.ok none) ∧
    (buildRow "part.sldprt" docNoBox true true true true =
      buildRow "part.sldprt" docNoBox true false true true ∧
    rowGet (buildRow "part.sldprt" docNoBox true true true true) "Length (mm)" = none ∧
    rowGet (buildRow "part.sldprt" docNoBox true true true true) "Width (mm)" = none ∧
    rowGet (buildRow "part.sldprt" docNoBox true true true true) "Height (mm)" = none ∧
    "Length (mm)" ∉ rowKeys (buildRow "part.sldprt" docNoBox true true true true) ∧
    "Width (mm)" ∉ rowKeys (buildRow "part.sldprt" docNoBox true true true true) ∧
    "Height (mm)" ∉ rowKeys (buildRow "part.sldprt" docNoBox true true true true)) :=
  ⟨Or.inr rfl,
    claim9_dims_absent_on_failure "part.sldprt" docNoBox true true true (Or.inr rfl)⟩
